import Mathlib

/-!
# Verification of the meduza scroll-animation controllers

Shallow embedding of the four animation controllers of the repository
(`LenisScroll`, `HorizontalScroll`, `ComplexHorizontal`, `MeduzaHorizontal`)
and proofs of the behavioural claims about them.

Conventions of the embedding:
* scroll progress and percentage translations are rationals (the JS numbers
  are treated as exact arithmetic, as the spec does);
* a DOM element that may be `null` is a `Bool` flag (present / absent) or an
  `Option` when the code stores a handle it may kill;
* colors are RGB channel triples; the tween engine's color interpolation is
  channel-wise linear interpolation;
* a method that could throw on a `null` dereference is embedded in
  `Except String`; the guarded code paths then provably return `.ok`.
-/

/-- An RGB color, each channel a rational.  Stands for the CSS color strings
`--color-light` / `--color-dark` handled by the tween engine. -/
structure Color where
  r : ℚ
  g : ℚ
  b : ℚ
deriving DecidableEq, Repr

/-- `gsap.utils.interpolate` on colors: channel-wise linear interpolation
`c1 + (c2 - c1) * t`. -/
def interpolate (c1 c2 : Color) (t : ℚ) : Color :=
  { r := c1.r + (c2.r - c1.r) * t
    g := c1.g + (c2.g - c1.g) * t
    b := c1.b + (c2.b - c1.b) * t }

/-! ## ComplexHorizontal (Phase-Orchestrated Complex Scroller)

State of a `ComplexHorizontal` instance: the instance fields of the class
together with the visual properties its updates write (container background
color, flip-animation scrub position, wrapper / clone `x` translations, the
number of live clone nodes appended to the document). -/

structure ComplexState where
  /-- `this.container` (`#app`) was found (non-null). -/
  hasContainer : Bool
  /-- `this.horizontalWrapper` was found (non-null). -/
  hasWrapper : Bool
  /-- `this.pinnedMarqueeImg` was found (non-null). -/
  hasSourceImg : Bool
  /-- `this.lightColor` read from `--color-light`. -/
  lightColor : Color
  /-- `this.darkColor` read from `--color-dark`. -/
  darkColor : Color
  /-- `this.pinnedImgClone !== null`. -/
  pinnedImgClone : Bool
  /-- `this.isImgCloneActive`. -/
  isImgCloneActive : Bool
  /-- `this.flipAnimation`: `some pos` is a live flip animation whose scrub
  position is `pos`; `none` is the `null` reference. -/
  flipAnimation : Option ℚ
  /-- Number of clone nodes currently appended to `document.body`. -/
  liveClones : ℕ
  /-- Opacity of the original pinned marquee image (1 visible, 0 hidden). -/
  sourceImgOpacity : ℚ
  /-- Current inline background color of the container. -/
  bgColor : Color
  /-- Current `x` translation of `.horizontal__wrapper`, in percent. -/
  wrapperX : ℚ
  /-- Current `x` translation of the clone node, in percent. -/
  cloneX : ℚ
  /-- Number of ScrollTrigger handles in `this.scrollTriggers`. -/
  scrollTriggers : ℕ
deriving DecidableEq, Repr

namespace ComplexHorizontal

/-- `updateBackgroundColor(progress)`: on `progress <= 0.05` interpolate from
light to dark at `min(progress / 0.05, 1)`, beyond that hold the dark color.
Guarded by `if (!this.container) return`. -/
def updateBackgroundColor (progress : ℚ) (s : ComplexState) : ComplexState :=
  if ¬s.hasContainer then s
  else if progress ≤ 1/20 then
    { s with bgColor :=
        interpolate s.lightColor s.darkColor (min (progress / (1/20)) 1) }
  else
    { s with bgColor := s.darkColor }

/-- `updateFlipAnimation(progress)`: scrub the flip animation to
`progress / 0.2`, clamped to 1 past `0.2`.  No-op when `this.flipAnimation`
is `null`. -/
def updateFlipAnimation (progress : ℚ) (s : ComplexState) : ComplexState :=
  match s.flipAnimation with
  | none => s
  | some _ =>
    if progress ≤ 1/5 then
      { s with flipAnimation := some (progress / (1/5)) }
    else
      { s with flipAnimation := some 1 }

/-- `updateHorizontalScroll(progress)`: between 0.2 (exclusive) and 0.95
(inclusive) translate the wrapper to `-66.67 * (progress - 0.2) / 0.75`
percent and the clone to `-((66.67 / 100) * 3 * hp) * 100` percent; past
0.95 snap the clone to `-200%` and the wrapper to `-66.67%`.  Every write is
guarded by presence of the target node; at `progress ≤ 0.2` nothing is
written at all. -/
def updateHorizontalScroll (progress : ℚ) (s : ComplexState) : ComplexState :=
  if 1/5 < progress ∧ progress ≤ 19/20 then
    let horizontalProgress := (progress - 1/5) / (3/4)
    let s1 :=
      if s.hasWrapper then
        { s with wrapperX := -(6667/100) * horizontalProgress }
      else s
    if s1.pinnedImgClone then
      let slideMovement := (6667/100) / 100 * 3 * horizontalProgress
      { s1 with cloneX := -slideMovement * 100 }
    else s1
  else if 19/20 < progress then
    let s1 := if s.pinnedImgClone then { s with cloneX := -200 } else s
    if s1.hasWrapper then { s1 with wrapperX := -(6667/100) } else s1
  else s

/-- `handleMainScrollUpdate(self)`: the phase dispatcher; forwards the
progress value to the three phase updates in order. -/
def handleMainScrollUpdate (progress : ℚ) (s : ComplexState) : ComplexState :=
  updateHorizontalScroll progress
    (updateFlipAnimation progress
      (updateBackgroundColor progress s))

/-- `createPinnedImgClone()`: early-returns when a clone is already active or
there is no source image; otherwise appends a fresh clone node, hides the
original image, and raises the `isImgCloneActive` flag. -/
def createPinnedImgClone (s : ComplexState) : ComplexState :=
  if s.isImgCloneActive ∨ ¬s.hasSourceImg then s
  else
    { s with
      pinnedImgClone := true
      liveClones := s.liveClones + 1
      sourceImgOpacity := 0
      cloneX := 0
      isImgCloneActive := true }

/-- `removePinnedImgClone()`: early-returns when no clone is active;
otherwise removes the clone node (when the reference is non-null), restores
the original image's opacity, and clears the flag. -/
def removePinnedImgClone (s : ComplexState) : ComplexState :=
  if ¬s.isImgCloneActive then s
  else
    let s1 :=
      if s.pinnedImgClone then
        { s with pinnedImgClone := false, liveClones := s.liveClones - 1 }
      else s
    let s2 :=
      if s1.hasSourceImg then { s1 with sourceImgOpacity := 1 } else s1
    { s2 with isImgCloneActive := false }

/-- `initializeFlipAnimation()`: early-returns unless a clone reference
exists, the clone is active, and no flip animation exists yet; otherwise
builds the paused flip animation (scrub position 0). -/
def initializeFlipAnimation (s : ComplexState) : ComplexState :=
  if ¬s.pinnedImgClone ∨ ¬s.isImgCloneActive ∨ s.flipAnimation.isSome then s
  else { s with flipAnimation := some 0 }

/-- `resetFlipAnimation()`: kill the flip animation if any, reset the
container background to the light color and the wrapper translation to 0. -/
def resetFlipAnimation (s : ComplexState) : ComplexState :=
  let s1 :=
    match s.flipAnimation with
    | some _ => { s with flipAnimation := none }
    | none => s
  let s2 := if s1.hasContainer then { s1 with bgColor := s1.lightColor } else s1
  if s2.hasWrapper then { s2 with wrapperX := 0 } else s2

/-- `destroy()`: kill every stored ScrollTrigger, kill the flip animation if
any, remove a live clone, and clear inline props.  Every dereference is
guarded, so the method is total (never throws). -/
def destroy (s : ComplexState) : Except String ComplexState :=
  let s1 := { s with scrollTriggers := 0 }
  let s2 :=
    match s1.flipAnimation with
    | some _ => { s1 with flipAnimation := none }
    | none => s1
  let s3 := removePinnedImgClone s2
  .ok s3

/-- The clone-lifecycle trigger's callbacks: `onEnter`/`onEnterBack` call
`createPinnedImgClone`, `onLeaveBack` calls `removePinnedImgClone`. -/
inductive CloneEvent where
  | create
  | remove
deriving DecidableEq, Repr

/-- Run a sequence of clone-lifecycle callbacks. -/
def runCloneEvents (evs : List CloneEvent) (s : ComplexState) : ComplexState :=
  evs.foldl
    (fun t e =>
      match e with
      | .create => createPinnedImgClone t
      | .remove => removePinnedImgClone t)
    s

/-- Run a sequence of progress values through the phase dispatcher. -/
def runUpdates (ps : List ℚ) (s : ComplexState) : ComplexState :=
  ps.foldl (fun t p => handleMainScrollUpdate p t) s

/-- The visual state the spec's path-independence property talks about:
container background color, shape-morph scrub position, wrapper translation,
clone translation. -/
def visual (s : ComplexState) : Color × Option ℚ × ℚ × ℚ :=
  (s.bgColor, s.flipAnimation, s.wrapperX, s.cloneX)

/-- The state of a `ComplexHorizontal` instance right after the constructor
ran on a page where all elements are present: no clone, no flip animation,
five registered triggers, no inline styles yet (background at the page's
light color, translations 0). -/
def constructed (light dark : Color) : ComplexState :=
  { hasContainer := true
    hasWrapper := true
    hasSourceImg := true
    lightColor := light
    darkColor := dark
    pinnedImgClone := false
    isImgCloneActive := false
    flipAnimation := none
    liveClones := 0
    sourceImgOpacity := 1
    bgColor := light
    wrapperX := 0
    cloneX := 0
    scrollTriggers := 5 }

/-- A running state used for concrete evaluations: clone created and flip
animation initialized, as on a page scrolled into the horizontal section. -/
def sampleState : ComplexState :=
  initializeFlipAnimation
    (createPinnedImgClone (constructed ⟨240, 240, 240⟩ ⟨20, 20, 20⟩))

/-- Two states of the dispatcher that agree on everything the dispatcher
reads besides the visual fields it writes: element presence, existence of a
flip animation, and the theme colors. -/
def sameLayout (s t : ComplexState) : Prop :=
  s.hasContainer = t.hasContainer ∧ s.hasWrapper = t.hasWrapper ∧
  s.pinnedImgClone = t.pinnedImgClone ∧
  s.flipAnimation.isSome = t.flipAnimation.isSome ∧
  s.lightColor = t.lightColor ∧ s.darkColor = t.darkColor

/-- Invariant of the clone lifecycle: the `isImgCloneActive` flag counts the
live clone nodes and tracks the clone reference. -/
def cloneInvariant (s : ComplexState) : Prop :=
  s.liveClones = (if s.isImgCloneActive then 1 else 0) ∧
  s.pinnedImgClone = s.isImgCloneActive

end ComplexHorizontal

/-! ## MeduzaHorizontal (Beat-Synchronized Card Gallery)

The second `MeduzaHorizontal` class of the repository: per-card audio
toggles with a shared `currentAudio` closure variable and three beat-pulse
tween references on the instance. -/

/-- Per-card state: its `<audio>` element (`playing`, `currentTime`) and its
`.play-btn` toggle control (`checked`). -/
structure CardState where
  playing : Bool
  currentTime : ℚ
  checked : Bool
deriving DecidableEq, Repr

/-- State of a `MeduzaHorizontal` instance together with the `currentAudio`
closure variable of `initCardMusic`.  A beat tween reference is `some d`
(live tween of duration `d` seconds) or `none` (the `null` reference). -/
structure GalleryState where
  cards : ℕ → CardState
  currentAudio : Option ℕ
  beatTween : Option ℚ
  beatColorTween : Option ℚ
  cardsBeatTween : Option ℚ

namespace MeduzaHorizontal

/-- Update one card's state, leaving the others unchanged. -/
def setCard (f : CardState → CardState) (i : ℕ) (cards : ℕ → CardState) :
    ℕ → CardState :=
  fun k => if k = i then f (cards k) else cards k

/-- `tween.kill()`: throws on a `null` reference, succeeds on a live one. -/
def killTween (t : Option ℚ) : Except String Unit :=
  match t with
  | none => .error "TypeError: cannot read properties of null (reading kill)"
  | some _ => .ok ()

/-- `startBeatPulse(bpm)`: early-returns when any of the three loop tweens
already exists; otherwise creates the three yoyo loop tweens, each with
duration `((60000 / bpm) / 2) / 1000` seconds. -/
def startBeatPulse (bpm : ℚ) (s : GalleryState) : GalleryState :=
  if s.beatTween.isSome ∨ s.beatColorTween.isSome ∨ s.cardsBeatTween.isSome
  then s
  else
    let intervalMs := 60000 / bpm / 2
    { s with
      beatTween := some (intervalMs / 1000)
      beatColorTween := some (intervalMs / 1000)
      cardsBeatTween := some (intervalMs / 1000) }

/-- `stopBeatPulse()` state effect: kill each of the three loop tweens when
it exists and null its reference (the trailing one-shot settle tweens create
no lasting references). -/
def stopBeatPulse (s : GalleryState) : GalleryState :=
  let s1 := if s.beatTween.isSome then { s with beatTween := none } else s
  let s2 :=
    if s1.beatColorTween.isSome then { s1 with beatColorTween := none } else s1
  if s2.cardsBeatTween.isSome then { s2 with cardsBeatTween := none } else s2

/-- `stopBeatPulse()` with JavaScript `null`-dereference semantics: each
`kill` is inside an `if (tween)` guard, so the call never throws.  The
linking lemma `stopBeatPulseCall_ok` shows it always returns
`stopBeatPulse`'s result. -/
def stopBeatPulseCall (s : GalleryState) : Except String GalleryState := do
  let s1 ←
    if s.beatTween.isSome then do
      let _ ← killTween s.beatTween
      pure { s with beatTween := none }
    else pure s
  let s2 ←
    if s1.beatColorTween.isSome then do
      let _ ← killTween s1.beatColorTween
      pure { s1 with beatColorTween := none }
    else pure s1
  if s2.cardsBeatTween.isSome then do
    let _ ← killTween s2.cardsBeatTween
    pure { s2 with cardsBeatTween := none }
  else pure s2

/-- The `change` handler registered by `initCardMusic` on card `i`'s toggle.
`newChecked` is the checkbox state after the user's click (the DOM flips it
before the event fires); `playOk` tells whether `audio.play()` resolves or
rejects.  On a resolved play the `.then` callback records `currentAudio` and
starts the beat pulse; on a rejected play the toggle is reverted; on an
uncheck the audio is paused and the pulse stopped. -/
def toggleChange (i : ℕ) (newChecked : Bool) (playOk : Bool)
    (s : GalleryState) : GalleryState :=
  let s0 := { s with
    cards := setCard (fun c => { c with checked := newChecked }) i s.cards }
  let s1 :=
    match s0.currentAudio with
    | some j =>
      if j = i then s0
      else
        { s0 with cards := fun k =>
            let c := s0.cards k
            let c := if k = j then { c with playing := false, currentTime := 0 }
                     else c
            if k = i then c else { c with checked := false } }
    | none => s0
  if (s1.cards i).checked then
    if playOk then
      startBeatPulse 124
        { s1 with
          cards := setCard (fun c => { c with playing := true }) i s1.cards
          currentAudio := some i }
    else
      { s1 with
        cards := setCard (fun c => { c with checked := false }) i s1.cards }
  else
    stopBeatPulse
      { s1 with
        cards := setCard (fun c => { c with playing := false }) i s1.cards }

/-- The `ended` handler registered by `initCardMusic` on card `i`'s audio:
the element has stopped playing, the toggle is unchecked and the pulse
stopped. -/
def audioEnded (i : ℕ) (s : GalleryState) : GalleryState :=
  stopBeatPulse
    { s with
      cards := setCard (fun c => { c with playing := false, checked := false })
        i s.cards }

/-- The events the gallery controller reacts to. -/
inductive GalleryEvent where
  | toggle (i : ℕ) (newChecked : Bool) (playOk : Bool)
  | ended (i : ℕ)
deriving DecidableEq, Repr

/-- One gallery event step. -/
def galleryStep (e : GalleryEvent) (s : GalleryState) : GalleryState :=
  match e with
  | .toggle i b ok => toggleChange i b ok s
  | .ended i => audioEnded i s

/-- Run a sequence of gallery events. -/
def runGallery (evs : List GalleryEvent) (s : GalleryState) : GalleryState :=
  evs.foldl (fun t e => galleryStep e t) s

/-- No two distinct cards' audio elements are playing at the same time. -/
def atMostOnePlaying (s : GalleryState) : Prop :=
  ∀ k l : ℕ, (s.cards k).playing = true → (s.cards l).playing = true → k = l

/-- Invariant tying playback to the `currentAudio` closure variable: a
playing audio element is always the recorded current one. -/
def playingIsCurrent (s : GalleryState) : Prop :=
  ∀ k : ℕ, (s.cards k).playing = true → s.currentAudio = some k

/-- The state of a `MeduzaHorizontal` instance right after construction: no
audio playing, no toggle checked, no current audio, no beat tweens. -/
def constructed : GalleryState :=
  { cards := fun _ => { playing := false, currentTime := 0, checked := false }
    currentAudio := none
    beatTween := none
    beatColorTween := none
    cardsBeatTween := none }

/-- A running gallery state for concrete evaluations: card 0's track was
toggled on and is playing. -/
def sampleGallery : GalleryState :=
  toggleChange 0 true true constructed

/-- The methods defined on the `MeduzaHorizontal` class body (there is no
`destroy`). -/
def methods : List String :=
  ["constructor", "init", "setupElements", "initCardMusic",
   "createHorizontalPinAnimation", "createCardsAnimation",
   "startBeatPulse", "stopBeatPulse"]

/-- Invoking `destroy()` on a `MeduzaHorizontal` instance: JavaScript method
lookup finds no such method on the class, so the call throws a `TypeError`.
-/
def callDestroy (s : GalleryState) : Except String GalleryState :=
  if "destroy" ∈ methods then .ok s
  else .error "TypeError: this.destroy is not a function"

end MeduzaHorizontal

/-- Calling a method (`kill()`, `disconnect()`, `destroy()`) on a possibly
`null` handle: throws on `null`, succeeds on a live handle. -/
def killHandle (h : Option Unit) : Except String Unit :=
  match h with
  | none => .error "TypeError: cannot read properties of null"
  | some _ => .ok ()

/-! ## HorizontalScroll (Single-Axis Horizontal Scroller) -/

/-- An `IntersectionObserverEntry` as `handleIntersection` consumes it: the
index of the target slide in `this.slides` and its visibility ratio. -/
structure IEntry where
  target : ℕ
  intersectionRatio : ℚ
deriving DecidableEq, Repr

/-- State of a `HorizontalScroll` instance: the visibility state machine
(`currentVisibleIndex`, the titles' `y` offsets) and the handles `destroy`
tears down. -/
structure HSState where
  currentVisibleIndex : Option ℕ
  /-- `y` offset of slide `k`'s title (0 in view, -200 hidden). -/
  titleY : ℕ → ℚ
  scrollTrigger : Option Unit
  observer : Option Unit
  /-- Stored title tween handles (queued by `animateTitles`). -/
  titleAnimations : ℕ
  hasSlidesContainer : Bool

namespace HorizontalScroll

/-- `animateTitles(titles, activeIndex)`: the title whose index equals
`activeIndex` moves to `y = 0`, every other title to `y = -200`.  The index
is an integer because the caller may pass `-1`. -/
def animateTitles (activeIndex : ℤ) (s : HSState) : HSState :=
  { s with
    titleY := fun k => if (k : ℤ) = activeIndex then 0 else -200
    titleAnimations := s.titleAnimations + 1 }

/-- One entry of `handleIntersection`: at ratio ≥ 0.25 the slide becomes the
active index and its title animates in; below 0.25, and only when the entry
is the currently active slide, the active index falls back to the previous
index (or `null` for the first slide) and titles re-animate. -/
def intersectionStep (e : IEntry) (s : HSState) : HSState :=
  if 1/4 ≤ e.intersectionRatio then
    animateTitles (e.target : ℤ) { s with currentVisibleIndex := some e.target }
  else if e.intersectionRatio < 1/4 ∧ s.currentVisibleIndex = some e.target then
    let prevIndex : ℤ := (e.target : ℤ) - 1
    animateTitles prevIndex
      { s with currentVisibleIndex :=
          if 0 ≤ prevIndex then some prevIndex.toNat else none }
  else s

/-- `handleIntersection(entries)`: fold the entries in order. -/
def handleIntersection (entries : List IEntry) (s : HSState) : HSState :=
  entries.foldl (fun t e => intersectionStep e t) s

/-- The state of a `HorizontalScroll` instance right after construction on a
page where all elements are present. -/
def constructed : HSState :=
  { currentVisibleIndex := none
    titleY := fun _ => -200
    scrollTrigger := some ()
    observer := some ()
    titleAnimations := 0
    hasSlidesContainer := true }

/-- A running state for concrete evaluations: the third slide is active. -/
def sampleHS : HSState :=
  { constructed with
    currentVisibleIndex := some 2
    titleY := fun k => if k = 2 then 0 else -200 }

/-- `destroy()`: guarded kill of the ScrollTrigger, guarded disconnect of
the observer, kill of each stored title tween (each inside an
`if (animation)`), guarded `clearProps` — every dereference is guarded
(neither stored reference is nulled by the code). -/
def destroy (s : HSState) : Except String HSState := do
  let _ ← if s.scrollTrigger.isSome then killHandle s.scrollTrigger else pure ()
  let _ ← if s.observer.isSome then killHandle s.observer else pure ()
  pure { s with titleAnimations := 0 }

end HorizontalScroll

/-! ## LenisScroll (Smooth-Scroll Adapter) -/

/-- State of a `LenisScroll` instance: the inertial-scroll engine handle. -/
structure LenisState where
  lenis : Option Unit
deriving DecidableEq, Repr

namespace LenisScroll

/-- The state right after construction: `setupLenis` stored a live engine. -/
def constructed : LenisState :=
  { lenis := some () }

/-- `destroy()`: `this.lenis.destroy()` guarded by `if (this.lenis)` (the
reference itself is not nulled). -/
def destroy (s : LenisState) : Except String LenisState := do
  let _ ← if s.lenis.isSome then killHandle s.lenis else pure ()
  pure s

end LenisScroll

/-! ## Helper lemmas -/

lemma interpolate_zero (c1 c2 : Color) : interpolate c1 c2 0 = c1 := by
  cases c1
  simp [interpolate, Color.mk.injEq]

lemma interpolate_one (c1 c2 : Color) : interpolate c1 c2 1 = c2 := by
  cases c2
  simp only [interpolate, Color.mk.injEq, mul_one]
  refine ⟨by ring, by ring, by ring⟩

namespace ComplexHorizontal

lemma updateBackgroundColor_wrapperX (p : ℚ) (s : ComplexState) :
    (updateBackgroundColor p s).wrapperX = s.wrapperX := by
  unfold updateBackgroundColor; split_ifs <;> rfl

lemma updateBackgroundColor_cloneX (p : ℚ) (s : ComplexState) :
    (updateBackgroundColor p s).cloneX = s.cloneX := by
  unfold updateBackgroundColor; split_ifs <;> rfl

lemma updateBackgroundColor_flipAnimation (p : ℚ) (s : ComplexState) :
    (updateBackgroundColor p s).flipAnimation = s.flipAnimation := by
  unfold updateBackgroundColor; split_ifs <;> rfl

lemma updateBackgroundColor_hasContainer (p : ℚ) (s : ComplexState) :
    (updateBackgroundColor p s).hasContainer = s.hasContainer := by
  unfold updateBackgroundColor; split_ifs <;> rfl

lemma updateBackgroundColor_hasWrapper (p : ℚ) (s : ComplexState) :
    (updateBackgroundColor p s).hasWrapper = s.hasWrapper := by
  unfold updateBackgroundColor; split_ifs <;> rfl

lemma updateBackgroundColor_pinnedImgClone (p : ℚ) (s : ComplexState) :
    (updateBackgroundColor p s).pinnedImgClone = s.pinnedImgClone := by
  unfold updateBackgroundColor; split_ifs <;> rfl

lemma updateBackgroundColor_lightColor (p : ℚ) (s : ComplexState) :
    (updateBackgroundColor p s).lightColor = s.lightColor := by
  unfold updateBackgroundColor; split_ifs <;> rfl

lemma updateBackgroundColor_darkColor (p : ℚ) (s : ComplexState) :
    (updateBackgroundColor p s).darkColor = s.darkColor := by
  unfold updateBackgroundColor; split_ifs <;> rfl

lemma updateBackgroundColor_bgColor (p : ℚ) (s : ComplexState) :
    (updateBackgroundColor p s).bgColor =
      if s.hasContainer then
        if p ≤ 1/20 then
          interpolate s.lightColor s.darkColor (min (p / (1/20)) 1)
        else s.darkColor
      else s.bgColor := by
  unfold updateBackgroundColor
  by_cases hc : s.hasContainer <;> split_ifs <;> simp_all

lemma updateFlipAnimation_bgColor (p : ℚ) (s : ComplexState) :
    (updateFlipAnimation p s).bgColor = s.bgColor := by
  cases h : s.flipAnimation <;> simp only [updateFlipAnimation, h] <;>
    split_ifs <;> rfl

lemma updateFlipAnimation_wrapperX (p : ℚ) (s : ComplexState) :
    (updateFlipAnimation p s).wrapperX = s.wrapperX := by
  cases h : s.flipAnimation <;> simp only [updateFlipAnimation, h] <;>
    split_ifs <;> rfl

lemma updateFlipAnimation_cloneX (p : ℚ) (s : ComplexState) :
    (updateFlipAnimation p s).cloneX = s.cloneX := by
  cases h : s.flipAnimation <;> simp only [updateFlipAnimation, h] <;>
    split_ifs <;> rfl

lemma updateFlipAnimation_hasContainer (p : ℚ) (s : ComplexState) :
    (updateFlipAnimation p s).hasContainer = s.hasContainer := by
  cases h : s.flipAnimation <;> simp only [updateFlipAnimation, h] <;>
    split_ifs <;> rfl

lemma updateFlipAnimation_hasWrapper (p : ℚ) (s : ComplexState) :
    (updateFlipAnimation p s).hasWrapper = s.hasWrapper := by
  cases h : s.flipAnimation <;> simp only [updateFlipAnimation, h] <;>
    split_ifs <;> rfl

lemma updateFlipAnimation_pinnedImgClone (p : ℚ) (s : ComplexState) :
    (updateFlipAnimation p s).pinnedImgClone = s.pinnedImgClone := by
  cases h : s.flipAnimation <;> simp only [updateFlipAnimation, h] <;>
    split_ifs <;> rfl

lemma updateFlipAnimation_lightColor (p : ℚ) (s : ComplexState) :
    (updateFlipAnimation p s).lightColor = s.lightColor := by
  cases h : s.flipAnimation <;> simp only [updateFlipAnimation, h] <;>
    split_ifs <;> rfl

lemma updateFlipAnimation_darkColor (p : ℚ) (s : ComplexState) :
    (updateFlipAnimation p s).darkColor = s.darkColor := by
  cases h : s.flipAnimation <;> simp only [updateFlipAnimation, h] <;>
    split_ifs <;> rfl

lemma updateFlipAnimation_flipAnimation (p : ℚ) (s : ComplexState) :
    (updateFlipAnimation p s).flipAnimation =
      if s.flipAnimation.isSome then
        some (if p ≤ 1/5 then p / (1/5) else 1)
      else none := by
  cases h : s.flipAnimation <;> simp only [updateFlipAnimation, h] <;>
    split_ifs <;> simp_all

lemma updateHorizontalScroll_bgColor (p : ℚ) (s : ComplexState) :
    (updateHorizontalScroll p s).bgColor = s.bgColor := by
  unfold updateHorizontalScroll; dsimp only; split_ifs <;> rfl

lemma updateHorizontalScroll_flipAnimation (p : ℚ) (s : ComplexState) :
    (updateHorizontalScroll p s).flipAnimation = s.flipAnimation := by
  unfold updateHorizontalScroll; dsimp only; split_ifs <;> rfl

lemma updateHorizontalScroll_hasContainer (p : ℚ) (s : ComplexState) :
    (updateHorizontalScroll p s).hasContainer = s.hasContainer := by
  unfold updateHorizontalScroll; dsimp only; split_ifs <;> rfl

lemma updateHorizontalScroll_hasWrapper (p : ℚ) (s : ComplexState) :
    (updateHorizontalScroll p s).hasWrapper = s.hasWrapper := by
  unfold updateHorizontalScroll; dsimp only; split_ifs <;> rfl

lemma updateHorizontalScroll_pinnedImgClone (p : ℚ) (s : ComplexState) :
    (updateHorizontalScroll p s).pinnedImgClone = s.pinnedImgClone := by
  unfold updateHorizontalScroll; dsimp only; split_ifs <;> rfl

lemma updateHorizontalScroll_lightColor (p : ℚ) (s : ComplexState) :
    (updateHorizontalScroll p s).lightColor = s.lightColor := by
  unfold updateHorizontalScroll; dsimp only; split_ifs <;> rfl

lemma updateHorizontalScroll_darkColor (p : ℚ) (s : ComplexState) :
    (updateHorizontalScroll p s).darkColor = s.darkColor := by
  unfold updateHorizontalScroll; dsimp only; split_ifs <;> rfl

lemma updateHorizontalScroll_wrapperX (p : ℚ) (s : ComplexState)
    (hw : s.hasWrapper = true) :
    (updateHorizontalScroll p s).wrapperX =
      if 1/5 < p ∧ p ≤ 19/20 then -(6667/100) * ((p - 1/5) / (3/4))
      else if 19/20 < p then -(6667/100)
      else s.wrapperX := by
  unfold updateHorizontalScroll; dsimp only; split_ifs <;> simp_all

lemma updateHorizontalScroll_cloneX (p : ℚ) (s : ComplexState)
    (hc : s.pinnedImgClone = true) :
    (updateHorizontalScroll p s).cloneX =
      if 1/5 < p ∧ p ≤ 19/20 then
        -((6667/100) / 100 * 3 * ((p - 1/5) / (3/4))) * 100
      else if 19/20 < p then -200
      else s.cloneX := by
  unfold updateHorizontalScroll; dsimp only; split_ifs <;> simp_all

lemma handleMainScrollUpdate_bgColor (p : ℚ) (s : ComplexState) :
    (handleMainScrollUpdate p s).bgColor =
      if s.hasContainer then
        if p ≤ 1/20 then
          interpolate s.lightColor s.darkColor (min (p / (1/20)) 1)
        else s.darkColor
      else s.bgColor := by
  unfold handleMainScrollUpdate
  rw [updateHorizontalScroll_bgColor, updateFlipAnimation_bgColor,
    updateBackgroundColor_bgColor]

lemma handleMainScrollUpdate_flipAnimation (p : ℚ) (s : ComplexState) :
    (handleMainScrollUpdate p s).flipAnimation =
      if s.flipAnimation.isSome then
        some (if p ≤ 1/5 then p / (1/5) else 1)
      else none := by
  unfold handleMainScrollUpdate
  rw [updateHorizontalScroll_flipAnimation, updateFlipAnimation_flipAnimation,
    updateBackgroundColor_flipAnimation]

lemma handleMainScrollUpdate_wrapperX (p : ℚ) (s : ComplexState)
    (hw : s.hasWrapper = true) :
    (handleMainScrollUpdate p s).wrapperX =
      if 1/5 < p ∧ p ≤ 19/20 then -(6667/100) * ((p - 1/5) / (3/4))
      else if 19/20 < p then -(6667/100)
      else s.wrapperX := by
  unfold handleMainScrollUpdate
  rw [updateHorizontalScroll_wrapperX, updateFlipAnimation_wrapperX,
    updateBackgroundColor_wrapperX]
  rw [updateFlipAnimation_hasWrapper, updateBackgroundColor_hasWrapper]
  exact hw

lemma handleMainScrollUpdate_cloneX (p : ℚ) (s : ComplexState)
    (hc : s.pinnedImgClone = true) :
    (handleMainScrollUpdate p s).cloneX =
      if 1/5 < p ∧ p ≤ 19/20 then
        -((6667/100) / 100 * 3 * ((p - 1/5) / (3/4))) * 100
      else if 19/20 < p then -200
      else s.cloneX := by
  unfold handleMainScrollUpdate
  rw [updateHorizontalScroll_cloneX, updateFlipAnimation_cloneX,
    updateBackgroundColor_cloneX]
  rw [updateFlipAnimation_pinnedImgClone, updateBackgroundColor_pinnedImgClone]
  exact hc

lemma handleMainScrollUpdate_sameLayout (p : ℚ) (s : ComplexState) :
    sameLayout (handleMainScrollUpdate p s) s := by
  unfold sameLayout
  refine ⟨?_, ?_, ?_, ?_, ?_, ?_⟩
  · unfold handleMainScrollUpdate
    rw [updateHorizontalScroll_hasContainer, updateFlipAnimation_hasContainer,
      updateBackgroundColor_hasContainer]
  · unfold handleMainScrollUpdate
    rw [updateHorizontalScroll_hasWrapper, updateFlipAnimation_hasWrapper,
      updateBackgroundColor_hasWrapper]
  · unfold handleMainScrollUpdate
    rw [updateHorizontalScroll_pinnedImgClone,
      updateFlipAnimation_pinnedImgClone, updateBackgroundColor_pinnedImgClone]
  · rw [handleMainScrollUpdate_flipAnimation]
    cases h : s.flipAnimation <;> simp [h]
  · unfold handleMainScrollUpdate
    rw [updateHorizontalScroll_lightColor, updateFlipAnimation_lightColor,
      updateBackgroundColor_lightColor]
  · unfold handleMainScrollUpdate
    rw [updateHorizontalScroll_darkColor, updateFlipAnimation_darkColor,
      updateBackgroundColor_darkColor]

/-- C4: for every progress value handled by the dispatcher, the container
background is the light color at `p = 0`, exactly the dark color at every
`p ≥ 0.05`, the 50%-interpolated color at `p = 0.025`, and in general the
interpolation of light towards dark at parameter `min(p / 0.05, 1)`. -/
theorem background_color_phase_correct (s : ComplexState)
    (hc : s.hasContainer = true) :
    (handleMainScrollUpdate 0 s).bgColor = s.lightColor
    ∧ (∀ p : ℚ, 1/20 ≤ p → (handleMainScrollUpdate p s).bgColor = s.darkColor)
    ∧ (handleMainScrollUpdate (1/40) s).bgColor
        = interpolate s.lightColor s.darkColor (1/2)
    ∧ ∀ p : ℚ, (handleMainScrollUpdate p s).bgColor
        = interpolate s.lightColor s.darkColor (min (p / (1/20)) 1) := by
  have key : ∀ p : ℚ, (handleMainScrollUpdate p s).bgColor
      = interpolate s.lightColor s.darkColor (min (p / (1/20)) 1) := by
    intro p
    rw [handleMainScrollUpdate_bgColor, hc, if_pos rfl]
    split_ifs with h
    · rfl
    · have h1 : (1 : ℚ) ≤ p / (1/20) := by
        rw [le_div_iff (by norm_num : (0:ℚ) < 1/20)]
        linarith [not_le.mp h]
      rw [min_eq_right h1, interpolate_one]
  refine ⟨?_, ?_, ?_, key⟩
  · rw [key 0]
    norm_num
    rw [interpolate_zero]
  · intro p hp
    rw [key p]
    have h1 : (1 : ℚ) ≤ p / (1/20) := by
      rw [le_div_iff (by norm_num : (0:ℚ) < 1/20)]
      linarith
    rw [min_eq_right h1, interpolate_one]
  · rw [key (1/40)]
    norm_num

/-- Witness for `background_color_phase_correct` at a concrete running
state. -/
theorem background_color_phase_correct_witness :
    (handleMainScrollUpdate 0 sampleState).bgColor = sampleState.lightColor
    ∧ (handleMainScrollUpdate (1/10) sampleState).bgColor
        = sampleState.darkColor
    ∧ (handleMainScrollUpdate (1/40) sampleState).bgColor
        = interpolate sampleState.lightColor sampleState.darkColor (1/2) :=
  ⟨(background_color_phase_correct sampleState rfl).1,
   (background_color_phase_correct sampleState rfl).2.1 (1/10) (by norm_num),
   (background_color_phase_correct sampleState rfl).2.2.1⟩

/-- C2: the horizontal wrapper's translation is 0% at `p = 0.20` (nothing is
written there, so a wrapper still at its initial 0% stays at 0%), exactly
−66.67% at every `p ≥ 0.95`, `−66.67 · (p − 0.20)/0.75` percent strictly
between, and it moves monotonically between the endpoints. -/
theorem wrapper_translation_correct (s : ComplexState)
    (hw : s.hasWrapper = true) :
    (s.wrapperX = 0 → (handleMainScrollUpdate (1/5) s).wrapperX = 0)
    ∧ (∀ p : ℚ, 19/20 ≤ p →
        (handleMainScrollUpdate p s).wrapperX = -(6667/100))
    ∧ (∀ p : ℚ, 1/5 < p → p < 19/20 →
        (handleMainScrollUpdate p s).wrapperX
          = -(6667/100) * ((p - 1/5) / (3/4)))
    ∧ (∀ p q : ℚ, 1/5 < p → p ≤ q → q ≤ 19/20 →
        (handleMainScrollUpdate q s).wrapperX
          ≤ (handleMainScrollUpdate p s).wrapperX) := by
  refine ⟨?_, ?_, ?_, ?_⟩
  · intro h0
    rw [handleMainScrollUpdate_wrapperX _ _ hw]
    rw [if_neg (by norm_num), if_neg (by norm_num)]
    exact h0
  · intro p hp
    rw [handleMainScrollUpdate_wrapperX _ _ hw]
    by_cases h : p ≤ 19/20
    · have hp' : p = 19/20 := le_antisymm h hp
      subst hp'
      rw [if_pos (by norm_num)]
      norm_num
    · rw [if_neg (by tauto), if_pos (not_le.mp h)]
  · intro p h1 h2
    rw [handleMainScrollUpdate_wrapperX _ _ hw, if_pos ⟨h1, le_of_lt h2⟩]
  · intro p q h1 h2 h3
    rw [handleMainScrollUpdate_wrapperX _ _ hw,
      handleMainScrollUpdate_wrapperX _ _ hw,
      if_pos ⟨lt_of_lt_of_le h1 h2, h3⟩, if_pos ⟨h1, le_trans h2 h3⟩]
    have e : ∀ x : ℚ, -(6667/100) * ((x - 1/5) / (3/4))
        = -(6667/75) * x + 6667/375 := by
      intro x; ring
    rw [e, e]
    linarith

lemma sameLayout_refl (s : ComplexState) : sameLayout s s :=
  ⟨rfl, rfl, rfl, rfl, rfl, rfl⟩

lemma sameLayout_trans {a b c : ComplexState} (h1 : sameLayout a b)
    (h2 : sameLayout b c) : sameLayout a c := by
  obtain ⟨x1, x2, x3, x4, x5, x6⟩ := h1
  obtain ⟨y1, y2, y3, y4, y5, y6⟩ := h2
  exact ⟨x1.trans y1, x2.trans y2, x3.trans y3, x4.trans y4, x5.trans y5,
    x6.trans y6⟩

lemma runUpdates_sameLayout (ps : List ℚ) (s : ComplexState) :
    sameLayout (runUpdates ps s) s := by
  induction ps generalizing s with
  | nil => exact sameLayout_refl s
  | cons p ps ih =>
    have h : runUpdates (p :: ps) s = runUpdates ps (handleMainScrollUpdate p s) :=
      rfl
    rw [h]
    exact sameLayout_trans (ih (handleMainScrollUpdate p s))
      (handleMainScrollUpdate_sameLayout p s)

lemma handleMainScrollUpdate_visual_congr (p : ℚ) (hp : 1/5 < p)
    (s t : ComplexState) (hst : sameLayout s t) (hc : t.hasContainer = true)
    (hw : t.hasWrapper = true) (hpc : t.pinnedImgClone = true) :
    visual (handleMainScrollUpdate p s) = visual (handleMainScrollUpdate p t) := by
  obtain ⟨h1, h2, h3, h4, h5, h6⟩ := hst
  have hcs : s.hasContainer = true := h1.trans hc
  have hws : s.hasWrapper = true := h2.trans hw
  have hpcs : s.pinnedImgClone = true := h3.trans hpc
  have hnb : ¬(p ≤ 1/20) := by linarith
  have hnf : ¬(p ≤ 1/5) := not_le.mpr hp
  unfold visual
  simp only [Prod.mk.injEq]
  refine ⟨?_, ?_, ?_, ?_⟩
  · rw [handleMainScrollUpdate_bgColor, handleMainScrollUpdate_bgColor,
      hcs, hc, if_pos rfl, if_pos rfl, if_neg hnb, if_neg hnb, h6]
  · rw [handleMainScrollUpdate_flipAnimation,
      handleMainScrollUpdate_flipAnimation, h4, if_neg hnf]
  · rw [handleMainScrollUpdate_wrapperX _ _ hws,
      handleMainScrollUpdate_wrapperX _ _ hw]
    rcases le_or_lt p (19/20) with h | h
    · rw [if_pos ⟨hp, h⟩, if_pos ⟨hp, h⟩]
    · have hno : ¬(1/5 < p ∧ p ≤ 19/20) := fun hx => absurd hx.2 (not_le.mpr h)
      rw [if_neg hno, if_neg hno, if_pos h, if_pos h]
  · rw [handleMainScrollUpdate_cloneX _ _ hpcs,
      handleMainScrollUpdate_cloneX _ _ hpc]
    rcases le_or_lt p (19/20) with h | h
    · rw [if_pos ⟨hp, h⟩, if_pos ⟨hp, h⟩]
    · have hno : ¬(1/5 < p ∧ p ≤ 19/20) := fun hx => absurd hx.2 (not_le.mpr h)
      rw [if_neg hno, if_neg hno, if_pos h, if_pos h]

/-- C1 counterexample: the phase dispatcher is not path-independent for
progress values at or below 0.20, because `updateHorizontalScroll` writes
nothing there.  After the sequence `[0.5, 0.1]` the wrapper and clone retain
the translations written at 0.5, while a single call with `0.1` leaves them
at their initial values. -/
theorem path_independence_counterexample :
    visual (runUpdates [1/2, 1/10] sampleState)
      ≠ visual (handleMainScrollUpdate (1/10) sampleState) := by
  have e1 : runUpdates [1/2, 1/10] sampleState
      = handleMainScrollUpdate (1/10) (handleMainScrollUpdate (1/2) sampleState) :=
    rfl
  have hw1 : (handleMainScrollUpdate (1/2) sampleState).hasWrapper = true := by
    rw [(handleMainScrollUpdate_sameLayout (1/2) sampleState).2.1]
    rfl
  have hL : (runUpdates [1/2, 1/10] sampleState).wrapperX
      = -(6667/100) * ((1/2 - 1/5) / (3/4)) := by
    rw [e1, handleMainScrollUpdate_wrapperX _ _ hw1,
      if_neg (by norm_num), if_neg (by norm_num),
      handleMainScrollUpdate_wrapperX _ _ rfl, if_pos (by norm_num)]
  have hR : (handleMainScrollUpdate (1/10) sampleState).wrapperX = 0 := by
    rw [handleMainScrollUpdate_wrapperX _ _ rfl,
      if_neg (by norm_num), if_neg (by norm_num)]
    rfl
  intro h
  have hcomp := congrArg (fun v : Color × Option ℚ × ℚ × ℚ => v.2.2.1) h
  simp only [visual] at hcomp
  rw [hL, hR] at hcomp
  norm_num at hcomp

/-- C1 (amended): the phase dispatcher is path-independent for every
progress value `p > 0.20` — after any sequence of update calls ending with
`p`, the visual state (background color, shape-morph scrub position, wrapper
translation, clone translation) equals the state after the single call with
`p`; in particular the sequence `[0.3, 0.1, 0.3]` matches `[0.3]`.  For
`p ≤ 0.20` the wrapper and clone translations are not written and retain
whatever a previous update set, so full path-independence fails there. -/
theorem path_independence_above_horizontal_start (p : ℚ) (hp : 1/5 < p)
    (qs : List ℚ) (s : ComplexState) (hc : s.hasContainer = true)
    (hw : s.hasWrapper = true) (hpc : s.pinnedImgClone = true) :
    visual (runUpdates (qs ++ [p]) s)
      = visual (handleMainScrollUpdate p s) := by
  have hsplit : runUpdates (qs ++ [p]) s
      = handleMainScrollUpdate p (runUpdates qs s) := by
    unfold runUpdates
    rw [List.foldl_append]
    rfl
  rw [hsplit]
  exact handleMainScrollUpdate_visual_congr p hp _ s
    (runUpdates_sameLayout qs s) hc hw hpc

/-- Witness for `path_independence_above_horizontal_start`: the spec's own
example sequence `[0.3, 0.1, 0.3]` against the single call `[0.3]`. -/
theorem path_independence_above_horizontal_start_witness :
    visual (runUpdates [3/10, 1/10, 3/10] sampleState)
      = visual (handleMainScrollUpdate (3/10) sampleState) :=
  path_independence_above_horizontal_start (3/10) (by norm_num) [3/10, 1/10]
    sampleState rfl rfl rfl

/-- Witness for `wrapper_translation_correct` at a concrete running state. -/
theorem wrapper_translation_correct_witness :
    (handleMainScrollUpdate (1/5) sampleState).wrapperX = 0
    ∧ (handleMainScrollUpdate 1 sampleState).wrapperX = -(6667/100)
    ∧ (handleMainScrollUpdate (1/2) sampleState).wrapperX
        = -(6667/100) * ((1/2 - 1/5) / (3/4))
    ∧ (handleMainScrollUpdate (3/5) sampleState).wrapperX
        ≤ (handleMainScrollUpdate (2/5) sampleState).wrapperX :=
  ⟨(wrapper_translation_correct sampleState rfl).1 rfl,
   (wrapper_translation_correct sampleState rfl).2.1 1 (by norm_num),
   (wrapper_translation_correct sampleState rfl).2.2.1 (1/2) (by norm_num)
     (by norm_num),
   (wrapper_translation_correct sampleState rfl).2.2.2 (2/5) (3/5)
     (by norm_num) (by norm_num) (by norm_num)⟩

lemma createPinnedImgClone_inv (s : ComplexState) (h : cloneInvariant s) :
    cloneInvariant (createPinnedImgClone s) := by
  obtain ⟨h1, h2⟩ := h
  unfold createPinnedImgClone
  split_ifs with hg
  · exact ⟨h1, h2⟩
  · rw [not_or, Bool.not_eq_true] at hg
    obtain ⟨hna, _⟩ := hg
    have h1' : s.liveClones = 0 := by rw [h1, hna]; simp
    unfold cloneInvariant
    simp [h1']

lemma removePinnedImgClone_inv (s : ComplexState) (h : cloneInvariant s) :
    cloneInvariant (removePinnedImgClone s) := by
  obtain ⟨h1, h2⟩ := h
  unfold removePinnedImgClone
  by_cases ha : s.isImgCloneActive = true
  · rw [if_neg (by simp [ha])]
    have hp : s.pinnedImgClone = true := h2.trans ha
    have h1' : s.liveClones = 1 := by rw [h1, ha]; simp
    by_cases hs : s.hasSourceImg = true
    · unfold cloneInvariant
      simp [hp, hs, h1']
    · unfold cloneInvariant
      simp [hp, hs, h1']
  · rw [Bool.not_eq_true] at ha
    rw [if_pos (by simp [ha])]
    exact ⟨h1, h2⟩

lemma runCloneEvents_inv (evs : List CloneEvent) (s : ComplexState)
    (h : cloneInvariant s) : cloneInvariant (runCloneEvents evs s) := by
  induction evs generalizing s with
  | nil => exact h
  | cons e evs ih =>
    cases e with
    | create => exact ih _ (createPinnedImgClone_inv s h)
    | remove => exact ih _ (removePinnedImgClone_inv s h)

/-- C3: starting from a state satisfying the clone-lifecycle invariant (as
the constructed state does), any sequence of enter/leave-back callbacks
leaves at most one live clone node; creating is a no-op while a clone is
active and removing is a no-op while none is active. -/
theorem clone_at_most_one (evs : List CloneEvent) (s : ComplexState)
    (h : cloneInvariant s) :
    (runCloneEvents evs s).liveClones ≤ 1
    ∧ (∀ t : ComplexState, t.isImgCloneActive = true →
        createPinnedImgClone t = t)
    ∧ (∀ t : ComplexState, t.isImgCloneActive = false →
        removePinnedImgClone t = t) := by
  refine ⟨?_, ?_, ?_⟩
  · have hinv := runCloneEvents_inv evs s h
    rw [hinv.1]
    split_ifs <;> norm_num
  · intro t ht
    unfold createPinnedImgClone
    rw [if_pos (Or.inl (by simp [ht]))]
  · intro t ht
    unfold removePinnedImgClone
    rw [if_pos (by simp [ht])]

/-- Witness for `clone_at_most_one`: a double create followed by a double
remove from the constructed state, plus concrete no-op instances. -/
theorem clone_at_most_one_witness :
    (runCloneEvents [.create, .create, .remove, .remove]
        (constructed ⟨240, 240, 240⟩ ⟨20, 20, 20⟩)).liveClones ≤ 1
    ∧ createPinnedImgClone sampleState = sampleState
    ∧ removePinnedImgClone (constructed ⟨240, 240, 240⟩ ⟨20, 20, 20⟩)
        = constructed ⟨240, 240, 240⟩ ⟨20, 20, 20⟩ :=
  ⟨(clone_at_most_one [.create, .create, .remove, .remove]
      (constructed ⟨240, 240, 240⟩ ⟨20, 20, 20⟩) ⟨rfl, rfl⟩).1,
   (clone_at_most_one [] sampleState ⟨rfl, rfl⟩).2.1 sampleState rfl,
   (clone_at_most_one [] (constructed ⟨240, 240, 240⟩ ⟨20, 20, 20⟩)
      ⟨rfl, rfl⟩).2.2 (constructed ⟨240, 240, 240⟩ ⟨20, 20, 20⟩) rfl⟩

/-- C9: the shape-morph (flip) animation is only created when a clone
reference exists, the clone is active, and no flip animation exists yet;
repeated enter callbacks are idempotent, and nothing is created for a
missing or inactive clone. -/
theorem flip_animation_guarded (s : ComplexState) :
    (s.flipAnimation.isSome = true → initializeFlipAnimation s = s)
    ∧ initializeFlipAnimation (initializeFlipAnimation s)
        = initializeFlipAnimation s
    ∧ ((s.pinnedImgClone = false ∨ s.isImgCloneActive = false) →
        initializeFlipAnimation s = s)
    ∧ (s.pinnedImgClone = true → s.isImgCloneActive = true →
        s.flipAnimation = none →
        initializeFlipAnimation s = { s with flipAnimation := some 0 }) := by
  have hsome : ∀ t : ComplexState, t.flipAnimation.isSome = true →
      initializeFlipAnimation t = t := by
    intro t ht
    unfold initializeFlipAnimation
    rw [if_pos (Or.inr (Or.inr (by simp [ht])))]
  refine ⟨hsome s, ?_, ?_, ?_⟩
  · by_cases hg : ¬s.pinnedImgClone ∨ ¬s.isImgCloneActive ∨
        s.flipAnimation.isSome
    · have he : initializeFlipAnimation s = s := by
        unfold initializeFlipAnimation
        rw [if_pos hg]
      rw [he]
      exact he
    · have he : initializeFlipAnimation s = { s with flipAnimation := some 0 } := by
        unfold initializeFlipAnimation
        rw [if_neg hg]
      rw [he]
      exact hsome _ rfl
  · intro hcase
    unfold initializeFlipAnimation
    rcases hcase with hpc | hia
    · rw [if_pos (Or.inl (by simp [hpc]))]
    · rw [if_pos (Or.inr (Or.inl (by simp [hia])))]
  · intro hpc hia hfa
    unfold initializeFlipAnimation
    rw [if_neg (by simp [hpc, hia, hfa])]

/-- Witness for `flip_animation_guarded` at concrete states: the running
state already has a flip animation (create is a no-op and idempotent), the
freshly constructed state has no clone (nothing is created). -/
theorem flip_animation_guarded_witness :
    initializeFlipAnimation sampleState = sampleState
    ∧ initializeFlipAnimation (constructed ⟨240, 240, 240⟩ ⟨20, 20, 20⟩)
        = constructed ⟨240, 240, 240⟩ ⟨20, 20, 20⟩
    ∧ initializeFlipAnimation
          (createPinnedImgClone (constructed ⟨240, 240, 240⟩ ⟨20, 20, 20⟩))
        = { createPinnedImgClone (constructed ⟨240, 240, 240⟩ ⟨20, 20, 20⟩)
            with flipAnimation := some 0 } :=
  ⟨(flip_animation_guarded sampleState).1 rfl,
   (flip_animation_guarded
      (constructed ⟨240, 240, 240⟩ ⟨20, 20, 20⟩)).2.2.1 (Or.inl rfl),
   (flip_animation_guarded
      (createPinnedImgClone (constructed ⟨240, 240, 240⟩ ⟨20, 20, 20⟩))).2.2.2
      rfl rfl rfl⟩

end ComplexHorizontal

namespace MeduzaHorizontal

lemma startBeatPulse_cards (bpm : ℚ) (s : GalleryState) :
    (startBeatPulse bpm s).cards = s.cards := by
  unfold startBeatPulse; split_ifs <;> rfl

lemma startBeatPulse_currentAudio (bpm : ℚ) (s : GalleryState) :
    (startBeatPulse bpm s).currentAudio = s.currentAudio := by
  unfold startBeatPulse; split_ifs <;> rfl

lemma stopBeatPulse_cards (s : GalleryState) :
    (stopBeatPulse s).cards = s.cards := by
  unfold stopBeatPulse; dsimp only; split_ifs <;> rfl

lemma stopBeatPulse_currentAudio (s : GalleryState) :
    (stopBeatPulse s).currentAudio = s.currentAudio := by
  unfold stopBeatPulse; dsimp only; split_ifs <;> rfl

lemma stopBeatPulse_beatTween (s : GalleryState) :
    (stopBeatPulse s).beatTween = none := by
  obtain ⟨cards, ca, bt, bct, cbt⟩ := s
  cases bt <;> cases bct <;> cases cbt <;> rfl

lemma stopBeatPulse_beatColorTween (s : GalleryState) :
    (stopBeatPulse s).beatColorTween = none := by
  obtain ⟨cards, ca, bt, bct, cbt⟩ := s
  cases bt <;> cases bct <;> cases cbt <;> rfl

lemma stopBeatPulse_cardsBeatTween (s : GalleryState) :
    (stopBeatPulse s).cardsBeatTween = none := by
  obtain ⟨cards, ca, bt, bct, cbt⟩ := s
  cases bt <;> cases bct <;> cases cbt <;> rfl

lemma stopBeatPulseCall_ok (s : GalleryState) :
    stopBeatPulseCall s = .ok (stopBeatPulse s) := by
  obtain ⟨cards, ca, bt, bct, cbt⟩ := s
  cases bt <;> cases bct <;> cases cbt <;> rfl

lemma setCard_eq (f : CardState → CardState) (i : ℕ) (cards : ℕ → CardState)
    (k : ℕ) : setCard f i cards k = if k = i then f (cards k) else cards k :=
  rfl

lemma audioEnded_cards (i : ℕ) (s : GalleryState) (k : ℕ) :
    (audioEnded i s).cards k =
      if k = i then { s.cards k with playing := false, checked := false }
      else s.cards k := by
  unfold audioEnded
  rw [stopBeatPulse_cards]
  dsimp only
  rw [setCard_eq]

lemma audioEnded_currentAudio (i : ℕ) (s : GalleryState) :
    (audioEnded i s).currentAudio = s.currentAudio := by
  unfold audioEnded
  rw [stopBeatPulse_currentAudio]

lemma toggleChange_cards (i : ℕ) (b ok : Bool) (s : GalleryState) (k : ℕ) :
    (toggleChange i b ok s).cards k =
      if k = i then
        if b then
          if ok then { s.cards i with checked := true, playing := true }
          else { s.cards i with checked := false }
        else { s.cards i with checked := false, playing := false }
      else
        (match s.currentAudio with
        | some j =>
          if j = i then s.cards k
          else if k = j then
            { s.cards k with
                playing := false
                currentTime := 0
                checked := false }
          else { s.cards k with checked := false }
        | none => s.cards k) := by
  unfold toggleChange
  cases hca : s.currentAudio with
  | none =>
    by_cases hki : k = i
    · subst hki
      cases b <;> cases ok <;>
        simp [setCard_eq, startBeatPulse_cards, stopBeatPulse_cards, hca]
    · cases b <;> cases ok <;>
        simp [setCard_eq, startBeatPulse_cards, stopBeatPulse_cards, hca, hki]
  | some j =>
    by_cases hji : j = i
    · subst hji
      by_cases hki : k = j
      · subst hki
        cases b <;> cases ok <;>
          simp [setCard_eq, startBeatPulse_cards, stopBeatPulse_cards, hca]
      · cases b <;> cases ok <;>
          simp [setCard_eq, startBeatPulse_cards, stopBeatPulse_cards, hca,
            hki]
    · have hij : ¬i = j := fun h => hji h.symm
      by_cases hki : k = i
      · subst hki
        cases b <;> cases ok <;>
          simp [setCard_eq, startBeatPulse_cards, stopBeatPulse_cards, hca,
            hji, hij]
      · by_cases hkj : k = j
        · subst hkj
          cases b <;> cases ok <;>
            simp [setCard_eq, startBeatPulse_cards, stopBeatPulse_cards, hca,
              hji, hij, hki]
        · cases b <;> cases ok <;>
            simp [setCard_eq, startBeatPulse_cards, stopBeatPulse_cards, hca,
              hji, hij, hki, hkj]

lemma toggleChange_currentAudio (i : ℕ) (b ok : Bool) (s : GalleryState) :
    (toggleChange i b ok s).currentAudio =
      if b && ok then some i else s.currentAudio := by
  unfold toggleChange
  cases hca : s.currentAudio with
  | none =>
    cases b <;> cases ok <;>
      simp [setCard_eq, startBeatPulse_currentAudio,
        stopBeatPulse_currentAudio, hca]
  | some j =>
    by_cases hji : j = i
    · subst hji
      cases b <;> cases ok <;>
        simp [setCard_eq, startBeatPulse_currentAudio,
          stopBeatPulse_currentAudio, hca]
    · have hij : ¬i = j := fun h => hji h.symm
      cases b <;> cases ok <;>
        simp [setCard_eq, startBeatPulse_currentAudio,
          stopBeatPulse_currentAudio, hca, hji, hij]

lemma toggleChange_false_tweens (i : ℕ) (ok : Bool) (s : GalleryState) :
    (toggleChange i false ok s).beatTween = none
    ∧ (toggleChange i false ok s).beatColorTween = none
    ∧ (toggleChange i false ok s).cardsBeatTween = none := by
  unfold toggleChange
  cases hca : s.currentAudio with
  | none =>
    simp [setCard_eq, hca, stopBeatPulse_beatTween, stopBeatPulse_beatColorTween,
      stopBeatPulse_cardsBeatTween]
  | some j =>
    by_cases hji : j = i
    · subst hji
      simp [setCard_eq, hca, stopBeatPulse_beatTween,
        stopBeatPulse_beatColorTween, stopBeatPulse_cardsBeatTween]
    · have hij : ¬i = j := fun h => hji h.symm
      simp [setCard_eq, hca, hji, hij, stopBeatPulse_beatTween,
        stopBeatPulse_beatColorTween, stopBeatPulse_cardsBeatTween]

end MeduzaHorizontal

namespace MeduzaHorizontal

lemma toggleChange_playingIsCurrent (i : ℕ) (b ok : Bool) (s : GalleryState)
    (h : playingIsCurrent s) : playingIsCurrent (toggleChange i b ok s) := by
  intro k hk
  rw [toggleChange_cards] at hk
  rw [toggleChange_currentAudio]
  by_cases hki : k = i
  · subst hki
    rw [if_pos rfl] at hk
    cases b with
    | true =>
      cases ok with
      | true => simp
      | false =>
        simp only [if_true] at hk
        simp at hk
        simp [h k hk]
    | false =>
      simp at hk
  · rw [if_neg hki] at hk
    exfalso
    cases hca : s.currentAudio with
    | none =>
      rw [hca] at hk
      simp at hk
      have h2 := h k hk
      rw [hca] at h2
      exact Option.noConfusion h2
    | some j =>
      rw [hca] at hk
      by_cases hji : j = i
      · simp [hji] at hk
        have h2 := h k hk
        rw [hca] at h2
        simp at h2
        exact hki (h2 ▸ hji)
      · by_cases hkj : k = j
        · subst hkj
          simp [hji] at hk
        · simp [hji, hkj] at hk
          have h2 := h k hk
          rw [hca] at h2
          simp at h2
          exact hkj h2.symm

lemma audioEnded_playingIsCurrent (i : ℕ) (s : GalleryState)
    (h : playingIsCurrent s) : playingIsCurrent (audioEnded i s) := by
  intro k hk
  rw [audioEnded_cards] at hk
  rw [audioEnded_currentAudio]
  by_cases hki : k = i
  · subst hki
    simp at hk
  · rw [if_neg hki] at hk
    exact h k hk

lemma galleryStep_playingIsCurrent (e : GalleryEvent) (s : GalleryState)
    (h : playingIsCurrent s) : playingIsCurrent (galleryStep e s) := by
  cases e with
  | toggle i b ok => exact toggleChange_playingIsCurrent i b ok s h
  | ended i => exact audioEnded_playingIsCurrent i s h

lemma runGallery_playingIsCurrent (evs : List GalleryEvent) (s : GalleryState)
    (h : playingIsCurrent s) : playingIsCurrent (runGallery evs s) := by
  induction evs generalizing s with
  | nil => exact h
  | cons e evs ih => exact ih _ (galleryStep_playingIsCurrent e s h)

lemma playingIsCurrent_atMostOne (s : GalleryState) (h : playingIsCurrent s) :
    atMostOnePlaying s := by
  intro k l hk hl
  have h2 := (h k hk).symm.trans (h l hl)
  simpa using h2

/-- C5: a toggle change on card `i` while a different card `j` is current
pauses `j`, resets its position to 0, and unchecks its toggle; the newly
toggled card then plays; over any event sequence from construction, at most
one card's audio is playing at a time. -/
theorem audio_exclusivity :
    (∀ (s : GalleryState) (i j : ℕ) (b ok : Bool),
        s.currentAudio = some j → j ≠ i →
        ((toggleChange i b ok s).cards j).playing = false
        ∧ ((toggleChange i b ok s).cards j).currentTime = 0
        ∧ ((toggleChange i b ok s).cards j).checked = false)
    ∧ (∀ (s : GalleryState) (i : ℕ),
        ((toggleChange i true true s).cards i).playing = true)
    ∧ ∀ evs : List GalleryEvent,
        atMostOnePlaying (runGallery evs constructed) := by
  refine ⟨?_, ?_, ?_⟩
  · intro s i j b ok hca hji
    have hc := toggleChange_cards i b ok s j
    rw [hca] at hc
    simp [hji] at hc
    rw [hc]
    exact ⟨rfl, rfl, rfl⟩
  · intro s i
    have hc := toggleChange_cards i true true s i
    simp at hc
    rw [hc]
  · intro evs
    refine playingIsCurrent_atMostOne _
      (runGallery_playingIsCurrent evs constructed ?_)
    intro k hk
    simp [constructed] at hk

/-- Witness for `audio_exclusivity`: toggling card 1 on while card 0 plays
pauses, rewinds and unchecks card 0 and plays card 1; a concrete two-toggle
run keeps at most one audio playing. -/
theorem audio_exclusivity_witness :
    ((toggleChange 1 true true sampleGallery).cards 0).playing = false
    ∧ ((toggleChange 1 true true sampleGallery).cards 0).currentTime = 0
    ∧ ((toggleChange 1 true true sampleGallery).cards 0).checked = false
    ∧ ((toggleChange 1 true true sampleGallery).cards 1).playing = true
    ∧ atMostOnePlaying
        (runGallery [.toggle 0 true true, .toggle 1 true true] constructed) :=
  ⟨(audio_exclusivity.1 sampleGallery 1 0 true true rfl (by decide)).1,
   (audio_exclusivity.1 sampleGallery 1 0 true true rfl (by decide)).2.1,
   (audio_exclusivity.1 sampleGallery 1 0 true true rfl (by decide)).2.2,
   audio_exclusivity.2.1 sampleGallery 1,
   audio_exclusivity.2.2 [.toggle 0 true true, .toggle 1 true true]⟩

/-- C6: starting the beat pulse while any of the three loop tweens exists is
a no-op; stopping never throws (also when no tween is active) and nulls all
three tween references. -/
theorem beat_pulse_guarded :
    (∀ (s : GalleryState) (bpm : ℚ),
        (s.beatTween.isSome ∨ s.beatColorTween.isSome ∨
          s.cardsBeatTween.isSome) →
        startBeatPulse bpm s = s)
    ∧ (∀ s : GalleryState, s.beatTween = none → s.beatColorTween = none →
        s.cardsBeatTween = none → stopBeatPulseCall s = .ok s)
    ∧ (∀ s : GalleryState, stopBeatPulseCall s = .ok (stopBeatPulse s)
        ∧ (stopBeatPulse s).beatTween = none
        ∧ (stopBeatPulse s).beatColorTween = none
        ∧ (stopBeatPulse s).cardsBeatTween = none) := by
  refine ⟨?_, ?_, ?_⟩
  · intro s bpm h
    unfold startBeatPulse
    rw [if_pos h]
  · intro s h1 h2 h3
    have e : stopBeatPulse s = s := by
      unfold stopBeatPulse
      simp [h1, h2, h3]
    rw [stopBeatPulseCall_ok, e]
  · intro s
    exact ⟨stopBeatPulseCall_ok s, stopBeatPulse_beatTween s,
      stopBeatPulse_beatColorTween s, stopBeatPulse_cardsBeatTween s⟩

/-- Witness for `beat_pulse_guarded`: a start with a live blur tween is a
no-op, and a stop on the freshly constructed state (no tweens) succeeds. -/
theorem beat_pulse_guarded_witness :
    startBeatPulse 124 { constructed with beatTween := some 1 }
      = { constructed with beatTween := some 1 }
    ∧ stopBeatPulseCall constructed = .ok constructed :=
  ⟨beat_pulse_guarded.1 { constructed with beatTween := some 1 } 124
      (Or.inl rfl),
   beat_pulse_guarded.2.1 constructed rfl rfl rfl⟩

/-- C10: unchecking the toggle of the card whose audio is current pauses it
and stops the pulse, but neither rewinds it to 0 nor clears it as current;
re-checking the same card resumes from the kept position. -/
theorem same_card_uncheck_keeps_position (s : GalleryState) (i : ℕ)
    (ok : Bool) (h : s.currentAudio = some i) :
    ((toggleChange i false ok s).cards i).playing = false
    ∧ ((toggleChange i false ok s).cards i).currentTime
        = (s.cards i).currentTime
    ∧ (toggleChange i false ok s).beatTween = none
    ∧ (toggleChange i false ok s).beatColorTween = none
    ∧ (toggleChange i false ok s).cardsBeatTween = none
    ∧ (toggleChange i false ok s).currentAudio = some i
    ∧ ((toggleChange i true true (toggleChange i false ok s)).cards i).currentTime
        = (s.cards i).currentTime
    ∧ ((toggleChange i true true (toggleChange i false ok s)).cards i).playing
        = true := by
  have hcards := toggleChange_cards i false ok s i
  simp at hcards
  have htw := toggleChange_false_tweens i ok s
  have hca2 := toggleChange_currentAudio i false ok s
  simp at hca2
  have hcards2 :=
    toggleChange_cards i true true (toggleChange i false ok s) i
  simp at hcards2
  refine ⟨?_, ?_, htw.1, htw.2.1, htw.2.2, ?_, ?_, ?_⟩
  · rw [hcards]
  · rw [hcards]
  · rw [hca2, h]
  · rw [hcards2, hcards]
  · rw [hcards2]

/-- Witness for `same_card_uncheck_keeps_position`: card 0 is current in
`sampleGallery`; unchecking then re-checking it keeps its position. -/
theorem same_card_uncheck_keeps_position_witness :
    ((toggleChange 0 false false sampleGallery).cards 0).playing = false
    ∧ ((toggleChange 0 false false sampleGallery).cards 0).currentTime
        = (sampleGallery.cards 0).currentTime
    ∧ (toggleChange 0 false false sampleGallery).currentAudio = some 0
    ∧ ((toggleChange 0 true true
          (toggleChange 0 false false sampleGallery)).cards 0).playing
        = true :=
  ⟨(same_card_uncheck_keeps_position sampleGallery 0 false rfl).1,
   (same_card_uncheck_keeps_position sampleGallery 0 false rfl).2.1,
   (same_card_uncheck_keeps_position sampleGallery 0 false rfl).2.2.2.2.2.1,
   (same_card_uncheck_keeps_position sampleGallery 0 false rfl).2.2.2.2.2.2.2⟩

end MeduzaHorizontal

namespace HorizontalScroll

/-- C8: in the visibility state machine, a below-threshold (< 0.25) entry
for the currently active slide moves the active index to that slide's index
minus one (or `null` for the first slide); a below-threshold entry for any
other slide changes nothing. -/
theorem active_slide_hysteresis (s : HSState) (i : ℕ) (r : ℚ)
    (hr : r < 1/4) :
    (s.currentVisibleIndex = some i →
        (intersectionStep ⟨i, r⟩ s).currentVisibleIndex
          = if i = 0 then none else some (i - 1))
    ∧ (s.currentVisibleIndex ≠ some i → intersectionStep ⟨i, r⟩ s = s) := by
  constructor
  · intro hc
    unfold intersectionStep
    dsimp only
    rw [if_neg (not_le.mpr hr), if_pos ⟨hr, hc⟩]
    unfold animateTitles
    dsimp only
    rcases Nat.eq_zero_or_pos i with hi | hi
    · subst hi
      norm_num
    · have h1 : (0:ℤ) ≤ (i:ℤ) - 1 := by omega
      rw [if_pos h1, if_neg (by omega : ¬i = 0)]
      simp only [Option.some.injEq]
      omega
  · intro hc
    unfold intersectionStep
    dsimp only
    rw [if_neg (not_le.mpr hr), if_neg (fun hx => hc hx.2)]

/-- Witness for `active_slide_hysteresis`: with slide 2 active, a 10%-ratio
entry for slide 2 makes slide 1 active, and a 10%-ratio entry for slide 5
changes nothing. -/
theorem active_slide_hysteresis_witness :
    (intersectionStep ⟨2, 1/10⟩ sampleHS).currentVisibleIndex = some 1
    ∧ intersectionStep ⟨5, 1/10⟩ sampleHS = sampleHS :=
  ⟨by
    rw [(active_slide_hysteresis sampleHS 2 (1/10) (by norm_num)).1 rfl]
    norm_num,
   (active_slide_hysteresis sampleHS 5 (1/10) (by norm_num)).2 (by decide)⟩

end HorizontalScroll

/-- C7 counterexample: the Beat-Synchronized Card Gallery
(`MeduzaHorizontal`) defines no `destroy` method, so invoking `destroy`
right after construction throws a `TypeError` instead of completing. -/
theorem gallery_destroy_missing :
    MeduzaHorizontal.callDestroy MeduzaHorizontal.constructed
      = .error "TypeError: this.destroy is not a function" := by
  rfl

/-- C7 (amended): `destroy` called immediately after construction completes
without throwing on the Smooth-Scroll Adapter, the Single-Axis Horizontal
Scroller, and the Complex Scroller (each method's dereferences are guarded);
the Card Gallery has no `destroy` method at all, and the application-level
teardown skips it through a `typeof` check. -/
theorem controllers_destroy_after_construction (light dark : Color) :
    (∃ t, LenisScroll.destroy LenisScroll.constructed = .ok t)
    ∧ (∃ t, HorizontalScroll.destroy HorizontalScroll.constructed = .ok t)
    ∧ ∃ t, ComplexHorizontal.destroy (ComplexHorizontal.constructed light dark)
        = .ok t := by
  exact ⟨⟨_, rfl⟩, ⟨_, rfl⟩, ⟨_, rfl⟩⟩

/-- Witness for `controllers_destroy_after_construction` at concrete theme
colors. -/
theorem controllers_destroy_after_construction_witness :
    ∃ t, ComplexHorizontal.destroy
        (ComplexHorizontal.constructed ⟨240, 240, 240⟩ ⟨20, 20, 20⟩)
      = .ok t :=
  (controllers_destroy_after_construction ⟨240, 240, 240⟩ ⟨20, 20, 20⟩).2.2
